import Mathlib

/-!
Shallow embedding of the pyth-observer validation rules
(`src/pyth_observer/events.py`) and of the error filter and polling-loop
product body (`src/observer.py`), together with proofs about the claims of
the natural-language specification.

Python floats are modelled as rationals; Python ints and slot numbers as
integers.  A Python function that can raise is modelled with `Except`.
-/

/-- Price status enumeration, mirroring `pythclient.pythaccounts.PythPriceStatus`. -/
inductive PythPriceStatus
  | UNKNOWN
  | TRADING
  | HALTED
  | AUCTION
  deriving DecidableEq, Repr

/-- One price observation: price, confidence interval, status and slot.
Mirrors the price-info records read by the rules (`latest_price_info`,
`last_aggregate_price_info`, `aggregate_price_info`). -/
structure PriceInfo where
  price : ℚ
  confidence_interval : ℚ
  price_status : PythPriceStatus
  slot : ℤ
  deriving DecidableEq, Repr

/-- `MAX_SLOT_DIFFERENCE` from `events.py`. -/
def MAX_SLOT_DIFFERENCE : ℤ := 25

/-- The context a component (per-publisher) rule sees for one publisher of
one symbol: the aggregate info and slot of the price view, and the
publisher entries `price.quoters[key]` (`publisher_latest`) and
`price.quoter_aggregates[key]` (`publisher_aggregate`) bound in
`ValidationEvent.__init__`. -/
structure ComponentView where
  slot : ℤ
  aggregate : PriceInfo
  publisher_latest : PriceInfo
  publisher_aggregate : PriceInfo
  deriving DecidableEq, Repr

/-- Modelled from the spec: `Price.is_publishing` lives in
`pyth_observer/prices.py`, which is not part of the provided sources.  The
spec describes the condition as the publisher being actively trading, so
it is modelled as the publisher's latest status being Trading. -/
def ComponentView.is_publishing (v : ComponentView) : Bool :=
  v.publisher_latest.price_status == PythPriceStatus.TRADING

/-- Modelled from the spec: `Price.is_aggregate_publishing` lives in
`pyth_observer/prices.py`, which is not part of the provided sources.  The
spec describes the condition as the aggregate being actively trading, so
it is modelled as the aggregate status being Trading. -/
def ComponentView.is_aggregate_publishing (v : ComponentView) : Bool :=
  v.aggregate.price_status == PythPriceStatus.TRADING

namespace BadConfidence

/-- `BadConfidence.is_valid`: invalid when the publisher's confidence
interval is at most zero while its status is Trading. -/
def is_valid (v : ComponentView) : Bool :=
  if v.publisher_aggregate.confidence_interval ≤ 0 ∧
      v.publisher_aggregate.price_status = PythPriceStatus.TRADING then
    false
  else
    true

end BadConfidence

namespace ImprobableAggregate

/-- `ImprobableAggregate.threshold`. -/
def threshold : ℚ := 20

/-- `ImprobableAggregate.is_valid`: when the publisher's confidence
interval is nonzero, the normalized confidence is the absolute value of
(publisher price − aggregate price) divided by that interval; the rule is
invalid when the publisher and the aggregate are both publishing and the
normalized confidence exceeds the threshold. -/
def is_valid (v : ComponentView) : Bool :=
  let delta := v.publisher_aggregate.price - v.aggregate.price
  if v.publisher_aggregate.confidence_interval ≠ 0 then
    let confidence := |delta / v.publisher_aggregate.confidence_interval|
    if v.is_publishing && v.is_aggregate_publishing && decide (confidence > threshold) then
      false
    else
      true
  else
    true

end ImprobableAggregate

namespace PriceDeviation

/-- `PriceDeviation.threshold`: default 6, overridable through the
environment variable PYTH_OBSERVER_PRICE_DEVIATION_THRESHOLD; the default
is modelled. -/
def threshold : ℚ := 6

/-- `PriceDeviation.is_valid`: valid when the aggregate price is exactly
zero; otherwise invalid when the publisher and the aggregate are both
publishing and the percentage deviation from the aggregate exceeds the
threshold. -/
def is_valid (v : ComponentView) : Bool :=
  let delta := v.publisher_aggregate.price - v.aggregate.price
  if v.aggregate.price = 0 then
    true
  else
    let deviation := |delta / v.aggregate.price| * 100
    if v.is_publishing && v.is_aggregate_publishing && decide (deviation > threshold) then
      false
    else
      true

end PriceDeviation

namespace StoppedPublishing

/-- `StoppedPublishing.threshold_min`: default 600, overridable through
the environment; the default is modelled. -/
def threshold_min : ℤ := 600

/-- `StoppedPublishing.threshold_max`: default 1000, overridable through
the environment; the default is modelled. -/
def threshold_max : ℤ := 1000

/-- `StoppedPublishing.is_valid`: invalid when the number of slots since
the publisher last published, measured against the aggregate slot, is at
least `threshold_min` and below `threshold_max`. -/
def is_valid (v : ComponentView) : Bool :=
  let stopped_slots := v.aggregate.slot - v.publisher_latest.slot
  if threshold_min ≤ stopped_slots ∧ stopped_slots < threshold_max then
    false
  else
    true

end StoppedPublishing

/-- The context an account rule sees for one price account: the account
slot, the aggregate price info, the raw time-weighted averages keyed by
statistic type, the exponent, and the publisher components. -/
structure AccountView where
  slot : ℤ
  aggregate_price_info : PriceInfo
  aggregate_price : ℚ
  twap_raw : ℚ
  twac_raw : ℚ
  exponent : ℤ
  deriving DecidableEq, Repr

/-- `PriceAccountValidationEvent.convert_raw`: scale a raw value by ten to
the exponent. -/
def convert_raw (num : ℚ) (exponent : ℤ) : ℚ :=
  num * (10 : ℚ) ^ exponent

namespace PriceFeedOffline

/-- `PriceFeedOffline.is_valid`: invalid when the account slot is more
than `MAX_SLOT_DIFFERENCE` ahead of the aggregate slot or the aggregate
status is not Trading, and the market for the asset class is open.  The
market calendar (`pyth_observer/calendar.py`) is an external collaborator,
so its answer is passed in as `market_open`. -/
def is_valid (a : AccountView) (market_open : Bool) : Bool :=
  let slot_diff := a.slot - a.aggregate_price_info.slot
  if slot_diff > MAX_SLOT_DIFFERENCE ∨
      a.aggregate_price_info.price_status ≠ PythPriceStatus.TRADING then
    if market_open then false else true
  else
    true

end PriceFeedOffline

namespace TWAPvsAggregate

/-- `TWAPvsAggregate.threshold`: default 10, overridable through the
environment; the default is modelled. -/
def threshold : ℚ := 10

/-- `TWAPvsAggregate.is_valid`: the deviation of the converted TWAP from
the aggregate price in percent; the ZeroDivisionError raised by a zero
aggregate price is caught and turned into valid, which the embedding
expresses as an explicit zero test. -/
def is_valid (a : AccountView) : Bool :=
  let twap := convert_raw a.twap_raw a.exponent
  if a.aggregate_price = 0 then
    true
  else
    let deviation := 100 * |twap - a.aggregate_price| / a.aggregate_price
    if deviation > threshold then false else true

end TWAPvsAggregate

namespace PriceDeviationCoinGecko

/-- `PriceDeviationCoinGecko.threshold`: default 5, overridable through
the environment; the default is modelled. -/
def threshold : ℚ := 5

/-- `PriceDeviationCoinGecko.is_valid`: valid when the aggregate status is
not Trading, the CoinGecko reference price is absent, or the pyth
aggregate price is zero; otherwise the deviation of the pyth price from
the reference price is computed with an unguarded division by the
reference price, so a zero reference price raises ZeroDivisionError,
modelled as `Except.error`. -/
def is_valid (a : AccountView) (coingecko_price : Option ℚ) : Except Unit Bool :=
  let pyth_price := a.aggregate_price_info.price
  if a.aggregate_price_info.price_status ≠ PythPriceStatus.TRADING ∨
      coingecko_price = none ∨ pyth_price = 0 then
    Except.ok true
  else
    match coingecko_price with
    | none => Except.ok true
    | some usd =>
      if usd = 0 then
        Except.error ()
      else
        let coingecko_deviation := |pyth_price - usd| / usd * 100
        if coingecko_deviation > threshold then Except.ok false else Except.ok true

end PriceDeviationCoinGecko

/-- One entry of `price_account.price_components`: the publisher key with
its latest and last-aggregate price infos. -/
structure PriceComponent where
  publisher_key : String
  latest_price_info : PriceInfo
  last_aggregate_price_info : PriceInfo
  deriving DecidableEq, Repr

/-- The slice of a raw price account that the polling-loop product body in
`observer.py` reads. -/
structure PriceAccount where
  slot : ℤ
  aggregate_price_info : PriceInfo
  price_components : List PriceComponent
  deriving DecidableEq, Repr

/-- The `Price` view built by the product body: quoters and quoter
aggregates are association lists keyed by publisher key.  The constructor
call in `observer.py` passes only the slot, the aggregate info, the
product attributes and the publisher-name table, so the two maps start
empty and are filled by the loop over `price_components` that follows. -/
structure Price where
  slot : ℤ
  aggregate : PriceInfo
  quoters : List (String × PriceInfo)
  quoter_aggregates : List (String × PriceInfo)
  deriving DecidableEq, Repr

/-- What one iteration of the per-price-account body of `run_alerts`
records: the state of the quoters and quoter-aggregates maps at the
moment `verify_price` is invoked (component-rule evaluation), and their
state after the population loop. -/
structure ProductCycleTrace where
  quoters_at_component_evaluation : List (String × PriceInfo)
  quoter_aggregates_at_component_evaluation : List (String × PriceInfo)
  quoters_after : List (String × PriceInfo)
  quoter_aggregates_after : List (String × PriceInfo)
  deriving DecidableEq, Repr

/-- The per-price-account body of `run_alerts` in `observer.py`, in source
order: build the `Price` view, call `verify_price_account` and
`verify_price` on it, and only then loop over `price_components`
populating `price.quoters` and `price.quoter_aggregates`. -/
def run_alerts_price_account_body (price_account : PriceAccount) : ProductCycleTrace :=
  let price : Price :=
    { slot := price_account.slot
      aggregate := price_account.aggregate_price_info
      quoters := []
      quoter_aggregates := [] }
  let quoters_at_eval := price.quoters
  let quoter_aggregates_at_eval := price.quoter_aggregates
  let populated := price_account.price_components.foldl
    (fun p comp =>
      { p with
          quoters := p.quoters ++ [(comp.publisher_key, comp.latest_price_info)]
          quoter_aggregates :=
            p.quoter_aggregates ++ [(comp.publisher_key, comp.last_aggregate_price_info)] })
    price
  { quoters_at_component_evaluation := quoters_at_eval
    quoter_aggregates_at_component_evaluation := quoter_aggregates_at_eval
    quoters_after := populated.quoters
    quoter_aggregates_after := populated.quoter_aggregates }

/-- Modelled from the spec: `PriceValidator.verify_price` lives in
`pyth_observer/prices.py`, which is not part of the provided sources; the
spec states that component-rule evaluation runs every component rule once
per publisher present in the quoters map of the view it is given. -/
def componentRuleRuns (quoters : List (String × PriceInfo)) (numRules : ℕ) : ℕ :=
  quoters.length * numRules

/-- An error event as seen by `filter_errors`: its symbol and error code. -/
structure ErrorEvent where
  symbol : String
  error_code : String
  deriving DecidableEq, Repr

/-- The match key built by `filter_errors` for one event. -/
def matchKey (e : ErrorEvent) : String := e.symbol ++ "/" ++ e.error_code

/-- `filter_errors` from `observer.py`: keep the events whose match key is
matched by none of the regexes.  The regex engine (`re.match` with
IGNORECASE, a case-insensitive anchored match) is the Python standard
library, an external collaborator, so it is passed in as the predicate
`re_match` taking the pattern and the string. -/
def filter_errors (re_match : String → String → Bool) (regexes : List String)
    (errors : List ErrorEvent) : List ErrorEvent :=
  match errors with
  | [] => []
  | e :: rest =>
    let skip := regexes.any (fun r => re_match r (matchKey e))
    if skip then
      filter_errors re_match regexes rest
    else
      e :: filter_errors re_match regexes rest

/-! Example inputs used by concrete theorems below. -/

/-- Scenario view: aggregate price 100 with confidence 1, publisher price
125 with confidence 1, everything Trading. -/
def improbableScenario : ComponentView :=
  { slot := 10
    aggregate := ⟨100, 1, PythPriceStatus.TRADING, 10⟩
    publisher_latest := ⟨125, 1, PythPriceStatus.TRADING, 10⟩
    publisher_aggregate := ⟨125, 1, PythPriceStatus.TRADING, 10⟩ }

/-- A component view whose publisher confidence interval is exactly zero
while the prices are far apart and everything is Trading. -/
def zeroConfidenceView : ComponentView :=
  { slot := 10
    aggregate := ⟨100, 1, PythPriceStatus.TRADING, 10⟩
    publisher_latest := ⟨1000000, 0, PythPriceStatus.TRADING, 10⟩
    publisher_aggregate := ⟨1000000, 0, PythPriceStatus.TRADING, 10⟩ }

/-- A component view with a 25 percent deviation from a nonzero aggregate
while neither the publisher nor the aggregate is publishing. -/
def deviationNotPublishingView : ComponentView :=
  { slot := 10
    aggregate := ⟨100, 1, PythPriceStatus.UNKNOWN, 10⟩
    publisher_latest := ⟨125, 1, PythPriceStatus.UNKNOWN, 10⟩
    publisher_aggregate := ⟨125, 1, PythPriceStatus.UNKNOWN, 10⟩ }

/-- Scenario view: aggregate slot 1000, publisher last slot 700 (gap 300). -/
def stoppedView300 : ComponentView :=
  { slot := 1000
    aggregate := ⟨100, 1, PythPriceStatus.TRADING, 1000⟩
    publisher_latest := ⟨100, 1, PythPriceStatus.TRADING, 700⟩
    publisher_aggregate := ⟨100, 1, PythPriceStatus.TRADING, 700⟩ }

/-- Scenario view: aggregate slot 1000, publisher last slot 350 (gap 650). -/
def stoppedView650 : ComponentView :=
  { slot := 1000
    aggregate := ⟨100, 1, PythPriceStatus.TRADING, 1000⟩
    publisher_latest := ⟨100, 1, PythPriceStatus.TRADING, 350⟩
    publisher_aggregate := ⟨100, 1, PythPriceStatus.TRADING, 350⟩ }

/-- Scenario account: aggregate price exactly zero, nonzero raw TWAP. -/
def twapZeroAggregateAccount : AccountView :=
  { slot := 10
    aggregate_price_info := ⟨0, 1, PythPriceStatus.TRADING, 10⟩
    aggregate_price := 0
    twap_raw := 5
    twac_raw := 5
    exponent := 0 }

/-- Scenario account: aggregate Trading with nonzero pyth price, to be
paired with a present CoinGecko reference price of zero. -/
def coingeckoZeroReferenceAccount : AccountView :=
  { slot := 10
    aggregate_price_info := ⟨1, 1, PythPriceStatus.TRADING, 10⟩
    aggregate_price := 1
    twap_raw := 1
    twac_raw := 1
    exponent := 0 }

/-- A price account carrying exactly one publisher price component. -/
def singleComponentAccount : PriceAccount :=
  { slot := 10
    aggregate_price_info := ⟨100, 1, PythPriceStatus.TRADING, 10⟩
    price_components :=
      [⟨"pub1", ⟨100, 1, PythPriceStatus.TRADING, 10⟩,
        ⟨100, 1, PythPriceStatus.TRADING, 10⟩⟩] }

/-! Theorems about the claims. -/

/-- C5: for every component view, BadConfidence evaluates to invalid
exactly when the publisher's confidence interval is at most 0 and the
publisher's status is Trading; in every other case it evaluates to
valid. -/
theorem BadConfidence_invalid_iff (v : ComponentView) :
    BadConfidence.is_valid v = false ↔
      v.publisher_aggregate.confidence_interval ≤ 0 ∧
      v.publisher_aggregate.price_status = PythPriceStatus.TRADING := by
  unfold BadConfidence.is_valid
  split <;> simp_all

/-- C7: for every component view, StoppedPublishing evaluates to invalid
exactly when the aggregate slot minus the publisher's last slot lies in
the half-open interval from 600 to 1000; a gap of 300 is valid and a gap
of 650 is invalid. -/
theorem StoppedPublishing_invalid_iff (v : ComponentView) :
    (StoppedPublishing.is_valid v = false ↔
      600 ≤ v.aggregate.slot - v.publisher_latest.slot ∧
      v.aggregate.slot - v.publisher_latest.slot < 1000) ∧
    StoppedPublishing.is_valid stoppedView300 = true ∧
    StoppedPublishing.is_valid stoppedView650 = false := by
  refine ⟨?_, by decide, by decide⟩
  simp only [StoppedPublishing.is_valid, StoppedPublishing.threshold_min,
    StoppedPublishing.threshold_max]
  split <;> simp_all

/-- C6: for every account view, PriceFeedOffline is valid whenever the
market is closed, and it is invalid exactly when the market is open and
either the aggregate slot gap exceeds 25 or the aggregate status is not
Trading. -/
theorem PriceFeedOffline_invalid_iff (a : AccountView) (market_open : Bool) :
    PriceFeedOffline.is_valid a false = true ∧
    (PriceFeedOffline.is_valid a market_open = false ↔
      market_open = true ∧
      (a.slot - a.aggregate_price_info.slot > MAX_SLOT_DIFFERENCE ∨
       a.aggregate_price_info.price_status ≠ PythPriceStatus.TRADING)) := by
  simp only [PriceFeedOffline.is_valid]
  constructor
  · split <;> simp
  · split <;> rename_i h
    · cases market_open <;> simp [h]
    · simp [h]

/-- C8: for every component view in which both the publisher and the
aggregate are actively trading, ImprobableAggregate evaluates to invalid
exactly when the distance between publisher price and aggregate price,
normalized by the publisher confidence interval, exceeds 20. -/
theorem ImprobableAggregate_invalid_iff (v : ComponentView)
    (hp : v.is_publishing = true) (ha : v.is_aggregate_publishing = true) :
    ImprobableAggregate.is_valid v = false ↔
      |(v.publisher_aggregate.price - v.aggregate.price) /
        v.publisher_aggregate.confidence_interval| > ImprobableAggregate.threshold := by
  by_cases hc : v.publisher_aggregate.confidence_interval = 0
  · simp [ImprobableAggregate.is_valid, hc, ImprobableAggregate.threshold]
  · by_cases hd : |(v.publisher_aggregate.price - v.aggregate.price) /
        v.publisher_aggregate.confidence_interval| > ImprobableAggregate.threshold
    · simp [ImprobableAggregate.is_valid, hc, hp, ha, hd]
    · simp [ImprobableAggregate.is_valid, hc, hp, ha, hd]

/-- C8 witness: in the scenario with aggregate price 100, publisher price
125 and publisher confidence 1, both sides actively trading, the rule is
invalid (the normalized distance is 25, above 20). -/
theorem ImprobableAggregate_invalid_iff_witness :
    improbableScenario.is_publishing = true ∧
    improbableScenario.is_aggregate_publishing = true ∧
    ImprobableAggregate.is_valid improbableScenario = false :=
  ⟨by decide, by decide,
    (ImprobableAggregate_invalid_iff improbableScenario (by decide) (by decide)).mpr (by
      show |((125 : ℚ) - 100) / 1| > 20
      norm_num)⟩

/-- C10: for every component view whose publisher confidence interval is
exactly 0, ImprobableAggregate evaluates to valid regardless of the
prices or the trading statuses. -/
theorem ImprobableAggregate_zero_confidence_valid (v : ComponentView)
    (h : v.publisher_aggregate.confidence_interval = 0) :
    ImprobableAggregate.is_valid v = true := by
  unfold ImprobableAggregate.is_valid
  simp [h]

/-- C10 witness: a view with zero publisher confidence, prices far apart
and everything Trading still evaluates to valid. -/
theorem ImprobableAggregate_zero_confidence_valid_witness :
    zeroConfidenceView.publisher_aggregate.confidence_interval = 0 ∧
    ImprobableAggregate.is_valid zeroConfidenceView = true :=
  ⟨by decide, ImprobableAggregate_zero_confidence_valid zeroConfidenceView (by decide)⟩

/-- C1 counterexample: a component view with aggregate price 100 and
publisher price 125 (a 25 percent deviation, above the default threshold
of 6) on which PriceDeviation nevertheless evaluates to valid, because
neither side is publishing; the claim as stated predicts invalid here. -/
theorem PriceDeviation_claim_counterexample :
    PriceDeviation.is_valid deviationNotPublishingView = true ∧
    deviationNotPublishingView.aggregate.price ≠ 0 ∧
    |(deviationNotPublishingView.publisher_aggregate.price -
        deviationNotPublishingView.aggregate.price) /
        deviationNotPublishingView.aggregate.price| * 100 > PriceDeviation.threshold := by
  refine ⟨by decide, by decide, ?_⟩
  show |((125 : ℚ) - 100) / 100| * 100 > PriceDeviation.threshold
  rw [abs_of_nonneg (by norm_num)]
  norm_num [PriceDeviation.threshold]

/-- C1 amended: for every component view, PriceDeviation evaluates to
invalid exactly when the aggregate price is nonzero, the publisher and
the aggregate are both actively publishing, and the percentage deviation
of the publisher price from the aggregate price exceeds the threshold;
when the aggregate price is exactly 0 it evaluates to valid. -/
theorem PriceDeviation_invalid_iff (v : ComponentView) :
    PriceDeviation.is_valid v = false ↔
      v.aggregate.price ≠ 0 ∧
      v.is_publishing = true ∧ v.is_aggregate_publishing = true ∧
      |(v.publisher_aggregate.price - v.aggregate.price) / v.aggregate.price| * 100 >
        PriceDeviation.threshold := by
  by_cases h0 : v.aggregate.price = 0
  · simp [PriceDeviation.is_valid, h0]
  · by_cases hp : v.is_publishing = true <;>
      by_cases ha : v.is_aggregate_publishing = true <;>
      by_cases hd : |(v.publisher_aggregate.price - v.aggregate.price) /
          v.aggregate.price| * 100 > PriceDeviation.threshold <;>
      simp [PriceDeviation.is_valid, h0, hp, ha, hd]

/-- C2: TWAPvsAggregate with a zero aggregate price returns valid (the
division by zero is guarded), but PriceDeviationCoinGecko with a present
reference price of 0, aggregate Trading and nonzero pyth price raises
ZeroDivisionError (modelled as `Except.error`) instead of returning
valid: its zero guard tests the pyth price, not the reference-price
divisor. -/
theorem zero_divisor_policy_eval :
    TWAPvsAggregate.is_valid twapZeroAggregateAccount = true ∧
    PriceDeviationCoinGecko.is_valid coingeckoZeroReferenceAccount (some 0) =
      Except.error () :=
  ⟨rfl, rfl⟩

/-- C9 counterexample: with a present reference price of 0, aggregate
Trading and pyth price 1, none of the claim's skip conditions holds and
the claim's deviation test does not exceed the threshold, so the claim
predicts valid; the code instead raises ZeroDivisionError (modelled as
`Except.error`). -/
theorem PriceDeviationCoinGecko_claim_counterexample :
    PriceDeviationCoinGecko.is_valid coingeckoZeroReferenceAccount (some 0) =
      Except.error () ∧
    coingeckoZeroReferenceAccount.aggregate_price_info.price_status =
      PythPriceStatus.TRADING ∧
    coingeckoZeroReferenceAccount.aggregate_price_info.price ≠ 0 ∧
    ¬(|coingeckoZeroReferenceAccount.aggregate_price_info.price - 0| / 0 * 100 >
        PriceDeviationCoinGecko.threshold) := by
  refine ⟨rfl, rfl, by decide, ?_⟩
  show ¬(|(1 : ℚ) - 0| / 0 * 100 > PriceDeviationCoinGecko.threshold)
  simp [PriceDeviationCoinGecko.threshold]

/-- C9 amended: PriceDeviationCoinGecko returns valid whenever the
reference price is absent, the aggregate status is not Trading, or the
pyth aggregate price is 0; it returns invalid exactly when the aggregate
is Trading, the pyth price is nonzero, and the reference price is present,
nonzero and more than the threshold percent away from the pyth price; and
it raises (instead of returning) exactly when the aggregate is Trading,
the pyth price is nonzero and the reference price is present and zero. -/
theorem PriceDeviationCoinGecko_characterization (a : AccountView) (cg : Option ℚ) :
    (PriceDeviationCoinGecko.is_valid a cg = Except.ok false ↔
      a.aggregate_price_info.price_status = PythPriceStatus.TRADING ∧
      a.aggregate_price_info.price ≠ 0 ∧
      ∃ usd, cg = some usd ∧ usd ≠ 0 ∧
        |a.aggregate_price_info.price - usd| / usd * 100 >
          PriceDeviationCoinGecko.threshold) ∧
    (PriceDeviationCoinGecko.is_valid a cg = Except.error () ↔
      a.aggregate_price_info.price_status = PythPriceStatus.TRADING ∧
      a.aggregate_price_info.price ≠ 0 ∧ cg = some 0) := by
  cases cg with
  | none => simp [PriceDeviationCoinGecko.is_valid]
  | some usd =>
    by_cases hs : a.aggregate_price_info.price_status = PythPriceStatus.TRADING
    · by_cases h0 : a.aggregate_price_info.price = 0
      · simp [PriceDeviationCoinGecko.is_valid, hs, h0]
      · by_cases hu : usd = 0
        · simp [PriceDeviationCoinGecko.is_valid, hs, h0, hu]
        · by_cases hd : |a.aggregate_price_info.price - usd| / usd * 100 >
              PriceDeviationCoinGecko.threshold
          · simp [PriceDeviationCoinGecko.is_valid, hs, h0, hu, hd]
          · simp [PriceDeviationCoinGecko.is_valid, hs, h0, hu, hd]
    · simp [PriceDeviationCoinGecko.is_valid, hs]

/-- C3: in the per-price-account body of `run_alerts`, the quoters map is
still empty at the moment component rules are evaluated, even for an
account with one publisher price component (so component-rule evaluation,
which per the spec runs once per quoters entry, runs zero times); the map
only reaches one entry after the population loop that follows. -/
theorem run_alerts_component_rules_before_population :
    (run_alerts_price_account_body singleComponentAccount).quoters_at_component_evaluation
      = [] ∧
    componentRuleRuns
      (run_alerts_price_account_body singleComponentAccount).quoters_at_component_evaluation
      5 = 0 ∧
    singleComponentAccount.price_components.length = 1 ∧
    (run_alerts_price_account_body singleComponentAccount).quoters_after.length = 1 :=
  ⟨rfl, rfl, rfl, rfl⟩

/-- C4: `filter_errors` with an empty pattern list is the identity, and
with any pattern list it keeps exactly the events whose match key is
matched by no pattern, in their original relative order, for any match
predicate (the anchored case-insensitive regex matcher being external). -/
theorem filter_errors_spec (re_match : String → String → Bool)
    (regexes : List String) (errors : List ErrorEvent) :
    filter_errors re_match [] errors = errors ∧
    filter_errors re_match regexes errors =
      errors.filter (fun e => ! regexes.any (fun r => re_match r (matchKey e))) := by
  constructor
  · induction errors with
    | nil => rfl
    | cons e rest ih => simp [filter_errors, ih]
  · induction errors with
    | nil => rfl
    | cons e rest ih =>
      by_cases h : regexes.any (fun r => re_match r (matchKey e)) = true
      · simp [filter_errors, h, List.filter_cons, ih]
      · simp [filter_errors, h, List.filter_cons, ih]
